import Mathlib

/-!
The MySQL-backed versioned store of notary and the timestamp expiry check.

A shallow embedding of `server/storage/database.go` and of the part of
`server/timestamp/timestamp_test.go` that exercises `timestampExpired`.

Modelling decisions

* The database is the pair of tables named in the schema comment of
  `MySQLStorage`.  A table is the list of its rows in insertion order.  The
  `id` column of `tuf_files` is assigned by the engine and is neither written
  nor read by any statement of the program, so rows carry the other columns.
* `tuf_files` carries `UNIQUE INDEX (gun, role, version)`; `timestamp_keys`
  is declared with no key or index at all.  Both are modelled as declared.
* Both tables are declared `DEFAULT CHARSET=utf8`, so `=` on a `VARCHAR` column
  and the unique index compare strings under the collation of that character
  set, not byte by byte.  The collation and the column checks of the engine
  are not part of the sources; they are the fields of `Engine`, and every
  general theorem holds for every engine.  `defaultEngine` is the engine of
  the concrete runs.
* Every place where the Go code receives an `err` from `database/sql` gets an
  explicit fault argument (`none`: the statement ran).  A statement that
  faults is not applied.  `rows.Next()` returns a boolean; its failure has a
  fault argument of its own.
* A Go `int` version is an `Int` (no arithmetic is done on it).  A `[]byte`
  is an optional list of bytes, `none` being the nil slice, which the driver
  sends as SQL NULL.
-/

namespace Notary

/-- Byte payload, the Go type `[]byte`; `none` is the nil slice. -/
abbrev Bytes := Option (List Nat)

/-- Errors handed back by `database/sql` and the MySQL driver. -/
inductive SqlErr where
  /-- The value `sql.ErrNoRows`. -/
  | ErrNoRows
  /-- A value of type `*mysql.MySQLError`. -/
  | MySQLError (Number : Nat) (Message : String)
  /-- Any other error value (connection loss, bad conversion, ...). -/
  | other (msg : String)
  deriving DecidableEq, Repr

/-- Errors returned by the operations of the storage package. -/
inductive StoreErr where
  | ErrOldVersion
  | ErrNotFound
  | ErrNoKey (gun : String)
  | ErrTimestampKeyExists (gun : String)
  /-- A driver error returned unchanged (`return err`). -/
  | backend (err : SqlErr)
  deriving DecidableEq, Repr

/-- One row of table `tuf_files`. -/
structure TufFile where
  gun : String
  role : String
  version : Int
  data : Bytes
  deriving DecidableEq, Repr

/-- One row of table `timestamp_keys`. -/
structure TimestampKey where
  gun : String
  cipher : String
  public : Bytes
  deriving DecidableEq, Repr

/-- The database behind `MySQLStorage`: the two tables of the schema comment. -/
structure MySQLStorage where
  tuf_files : List TufFile
  timestamp_keys : List TimestampKey
  deriving DecidableEq, Repr

/-- What the schema comment leaves to the database engine. -/
structure Engine where
  /-- The weight string the collation of the `utf8` columns gives a string: two
  strings are equal in a WHERE clause or in the unique index exactly when their
  weight strings are. -/
  collate : String → String
  /-- The error, if any, the engine raises because the values of a row do not fit
  the columns of `tuf_files` (`INT`, `VARCHAR(255) NOT NULL`). -/
  tufFileErr : TufFile → Option SqlErr
  /-- The error, if any, the engine raises because the values of a row do not fit
  the columns of `timestamp_keys` (`VARCHAR(255)`, `VARCHAR(30)`, `BLOB NOT NULL`). -/
  timestampKeyErr : TimestampKey → Option SqlErr

/-- The weight string of the default collation of `utf8` on strings of ASCII
characters: letter case and trailing spaces do not count. -/
def collateGeneralCi (s : String) : String :=
  String.mk (((s.data.reverse.dropWhile (fun c => c = ' ')).reverse).map Char.toUpper)

/-- The engine of the concrete runs: the default collation of the declared
character set and the column checks of strict mode.  The number of a MySQL error
is the one the engine reports (1264 out of range, 1406 data too long, 1048 column
cannot be null). -/
def defaultEngine : Engine where
  collate := collateGeneralCi
  tufFileErr r :=
    if r.version < -2147483648 ∨ 2147483647 < r.version then
      some (.MySQLError 1264 "Out of range value for column version")
    else if 255 < r.gun.length ∨ 255 < r.role.length then
      some (.MySQLError 1406 "Data too long for column")
    else none
  timestampKeyErr r :=
    if r.public = none then some (.MySQLError 1048 "Column public cannot be null")
    else if 255 < r.gun.length ∨ 30 < r.cipher.length then
      some (.MySQLError 1406 "Data too long for column")
    else none

/-- The number under which the engine reports an INSERT that violates a unique
index (duplicate entry).  Line 107 tests for 1022. -/
def duplicateEntryNumber : Nat := 1062

/-! ## The SQL statements -/

/-- The check statement `SELECT count(*) FROM tuf_files WHERE gun=? AND role=? AND version>=?`. -/
def countNotOlder (e : Engine) (rows : List TufFile) (gun role : String) (version : Int) : Nat :=
  (rows.filter (fun r => decide (e.collate r.gun = e.collate gun ∧
    e.collate r.role = e.collate role ∧ version ≤ r.version))).length

/-- One step of `ORDER BY version DESC LIMIT 1`: keep the row seen so far unless
the next one has a strictly higher version. -/
def pickLatest (best : Option TufFile) (r : TufFile) : Option TufFile :=
  match best with
  | none => some r
  | some b => if b.version < r.version then some r else some b

/-- The statement `SELECT data FROM tuf_files WHERE gun=? AND role=? ORDER BY version DESC LIMIT 1`:
the row of the pair with the highest version, if the pair has a row. -/
def selectLatest (e : Engine) (rows : List TufFile) (gun role : String) : Option TufFile :=
  (rows.filter (fun r => decide (e.collate r.gun = e.collate gun ∧
    e.collate r.role = e.collate role))).foldl pickLatest none

/-- The statement `INSERT INTO tuf_files (gun, role, version, data) VALUES (?,?,?,?)` under
`UNIQUE INDEX (gun, role, version)`: values that do not fit the columns are
rejected, and so is a row whose triple the index already holds. -/
def insertTufFile (e : Engine) (rows : List TufFile) (r : TufFile) : Except SqlErr (List TufFile) :=
  match e.tufFileErr r with
  | some err => .error err
  | none =>
    if rows.any (fun x => decide (e.collate x.gun = e.collate r.gun ∧
        e.collate x.role = e.collate r.role ∧ x.version = r.version)) then
      .error (.MySQLError duplicateEntryNumber "Duplicate entry")
    else
      .ok (rows ++ [r])

/-- The statement `DELETE FROM tuf_files WHERE gun=?`. -/
def deleteGun (e : Engine) (rows : List TufFile) (gun : String) : List TufFile :=
  rows.filter (fun r => decide (e.collate r.gun ≠ e.collate gun))

/-- The statement `SELECT cipher, public FROM timestamp_keys WHERE gun=?` read through
`QueryRow`: the first matching row. -/
def selectKey (e : Engine) (rows : List TimestampKey) (gun : String) : Option TimestampKey :=
  rows.find? (fun r => decide (e.collate r.gun = e.collate gun))

/-- The statement `INSERT INTO timestamp_keys (gun, cipher, public) VALUES (?,?,?)`: the table
is declared without any key, so a row whose values fit the columns is always
appended. -/
def insertKey (e : Engine) (rows : List TimestampKey) (r : TimestampKey) :
    Except SqlErr (List TimestampKey) :=
  match e.timestampKeyErr r with
  | some err => .error err
  | none => .ok (rows ++ [r])

/-! ## The operations of `MySQLStorage` -/

/-- Lines 43-51 of `UpdateCurrent`: the count query and the test on `exists`. -/
def checkOldVersion (e : Engine) (db : MySQLStorage) (gun role : String) (version : Int)
    (checkFault : Option SqlErr) : Option StoreErr :=
  match checkFault with
  | some err => some (.backend err)
  | none =>
    if countNotOlder e db.tuf_files gun role version ≠ 0 then some .ErrOldVersion else none

/-- Lines 56-62 of `UpdateCurrent`: the insert; every error is returned as it is. -/
def insertVersion (e : Engine) (db : MySQLStorage) (gun role : String) (version : Int)
    (data : Bytes) (insertFault : Option SqlErr) : Option StoreErr × MySQLStorage :=
  match insertFault with
  | some err => (some (.backend err), db)
  | none =>
    match insertTufFile e db.tuf_files ⟨gun, role, version, data⟩ with
    | .error err => (some (.backend err), db)
    | .ok rows => (none, { db with tuf_files := rows })

/-- Method `MySQLStorage.UpdateCurrent`: the returned error and the database afterwards. -/
def UpdateCurrent (e : Engine) (db : MySQLStorage) (gun role : String) (version : Int)
    (data : Bytes) (checkFault insertFault : Option SqlErr) : Option StoreErr × MySQLStorage :=
  match checkOldVersion e db gun role version checkFault with
  | some err => (some err, db)
  | none => insertVersion e db gun role version data insertFault

/-- What `rows.Next()` prepares in `GetCurrent`: the row of the query, or nothing
when the query has no row and also when fetching the row fails (the error then
stays in `rows.Err()`, which the code does not read). -/
def nextRow (e : Engine) (db : MySQLStorage) (gun tufRole : String)
    (fetchFault : Option SqlErr) : Option TufFile :=
  match fetchFault with
  | some _ => none
  | none => selectLatest e db.tuf_files gun tufRole

/-- Method `MySQLStorage.GetCurrent`: the pair `(data, err)`. -/
def GetCurrent (e : Engine) (db : MySQLStorage) (gun tufRole : String)
    (queryFault fetchFault scanFault : Option SqlErr) : Bytes × Option StoreErr :=
  match queryFault with
  | some err => (none, some (.backend err))
  | none =>
    match nextRow e db gun tufRole fetchFault with
    | none => (none, some .ErrNotFound)
    | some row =>
      match scanFault with
      | some err => (none, some (.backend err))
      | none => (row.data, none)

/-- Method `MySQLStorage.Delete`: the returned error and the database afterwards. -/
def Delete (e : Engine) (db : MySQLStorage) (gun : String) (execFault : Option SqlErr) :
    Option StoreErr × MySQLStorage :=
  match execFault with
  | some err => (some (.backend err), db)
  | none => (none, { db with tuf_files := deleteGun e db.tuf_files gun })

/-- What `row.Scan(&cipher, &public)` returns in `GetTimestampKey`. -/
def scanKey (e : Engine) (db : MySQLStorage) (gun : String) (fault : Option SqlErr) :
    Except SqlErr TimestampKey :=
  match fault with
  | some err => .error err
  | none =>
    match selectKey e db.timestamp_keys gun with
    | none => .error .ErrNoRows
    | some row => .ok row

/-- Method `MySQLStorage.GetTimestampKey`: the triple `(cipher, public, err)`. -/
def GetTimestampKey (e : Engine) (db : MySQLStorage) (gun : String) (fault : Option SqlErr) :
    String × Bytes × Option StoreErr :=
  match scanKey e db gun fault with
  | .error err =>
    if err = .ErrNoRows then ("", none, some (.ErrNoKey gun))
    else ("", none, some (.backend err))
  | .ok row => (row.cipher, row.public, none)

/-- What `db.Exec(stmt, gun, cipher, public)` returns in `SetTimestampKey`, and the
database afterwards. -/
def execInsertKey (e : Engine) (db : MySQLStorage) (gun cipher : String) (public : Bytes)
    (execFault : Option SqlErr) : Option SqlErr × MySQLStorage :=
  match execFault with
  | some err => (some err, db)
  | none =>
    match insertKey e db.timestamp_keys ⟨gun, cipher, public⟩ with
    | .error err => (some err, db)
    | .ok rows => (none, { db with timestamp_keys := rows })

/-- The type assertion `err.(*mysql.MySQLError)` of line 106: the asserted pointer,
which is nil (here `none`) when `err` is nil or has another dynamic type; `ok` is
true exactly when the result is a `some`. -/
def assertMySQLError (err : Option SqlErr) : Option (Nat × String) :=
  match err with
  | some (.MySQLError Number Message) => some (Number, Message)
  | _ => none

/-- Method `MySQLStorage.SetTimestampKey`: the returned error and the database afterwards.
The `err` declared by `if err, ok := err.(*mysql.MySQLError); ok` shadows the error
of `Exec` through the whole if-else chain, so `else if err != nil` tests the asserted
pointer, which is nil on that branch: the branch returns nothing and control
reaches `return nil`. -/
def SetTimestampKey (e : Engine) (db : MySQLStorage) (gun cipher : String) (public : Bytes)
    (execFault : Option SqlErr) : Option StoreErr × MySQLStorage :=
  let r := execInsertKey e db gun cipher public execFault
  match assertMySQLError r.1 with
  | some (Number, _) =>
    if Number = 1022 then (some (.ErrTimestampKeyExists gun), r.2) else (none, r.2)
  | none => (none, r.2)

/-! ## Interleavings and histories -/

/-- Two `UpdateCurrent` calls A and B for the same `(gun, role, version)` running
concurrently, their statements interleaved as check A, check B, insert A,
insert B.  The result is A's error, B's error and the database afterwards. -/
def raceUpdateCurrent (e : Engine) (db : MySQLStorage) (gun role : String) (version : Int)
    (dataA dataB : Bytes) : Option StoreErr × Option StoreErr × MySQLStorage :=
  match checkOldVersion e db gun role version none, checkOldVersion e db gun role version none with
  | none, none =>
    let a := insertVersion e db gun role version dataA none
    let b := insertVersion e a.2 gun role version dataB none
    (a.1, b.1, b.2)
  | ea, eb => (ea, eb, db)

/-- One call of a store operation, with the faults its driver calls meet. -/
inductive Op where
  | UpdateCurrent (gun role : String) (version : Int) (data : Bytes)
      (checkFault insertFault : Option SqlErr)
  | GetCurrent (gun tufRole : String) (queryFault fetchFault scanFault : Option SqlErr)
  | Delete (gun : String) (execFault : Option SqlErr)
  | GetTimestampKey (gun : String) (fault : Option SqlErr)
  | SetTimestampKey (gun cipher : String) (public : Bytes) (execFault : Option SqlErr)
  deriving DecidableEq, Repr

/-- The database after one operation. -/
def Op.run (e : Engine) (db : MySQLStorage) : Op → MySQLStorage
  | .UpdateCurrent gun role version data cf xf =>
    (Notary.UpdateCurrent e db gun role version data cf xf).2
  | .GetCurrent _ _ _ _ _ => db
  | .Delete gun xf => (Notary.Delete e db gun xf).2
  | .GetTimestampKey _ _ => db
  | .SetTimestampKey gun cipher pub xf => (Notary.SetTimestampKey e db gun cipher pub xf).2

/-- The database after a sequence of operations, run from left to right. -/
def runOps (e : Engine) (db : MySQLStorage) (ops : List Op) : MySQLStorage :=
  ops.foldl (Op.run e) db

/-- The operation is a `Delete` that the database carried out and whose argument
the collation equates with `gun`: the DELETE statement matches the rows of `gun`. -/
def Op.deletes (e : Engine) (gun : String) : Op → Bool
  | .Delete g none => decide (e.collate g = e.collate gun)
  | _ => false

/-- The arguments of one `UpdateCurrent` call on a fixed `(gun, role)`. -/
structure Write where
  version : Int
  data : Bytes
  checkFault : Option SqlErr
  insertFault : Option SqlErr
  deriving DecidableEq, Repr

/-- A sequence of `UpdateCurrent` calls on `(gun, role)`: the database afterwards
and the error each call returned, in order. -/
def applyWrites (e : Engine) (gun role : String) :
    MySQLStorage → List Write → MySQLStorage × List (Option StoreErr)
  | db, [] => (db, [])
  | db, w :: ws =>
    let r := UpdateCurrent e db gun role w.version w.data w.checkFault w.insertFault
    let rest := applyWrites e gun role r.2 ws
    (rest.1, r.1 :: rest.2)

/-! ## Timestamp expiry -/

/-- The part of `data.Timestamp` the expiry check reads: the expiration instant,
counted in nanoseconds. -/
structure Timestamp where
  Expires : Int
  deriving DecidableEq, Repr

/-- The type `data.SignedTimestamp`, with its signatures left out. -/
structure SignedTimestamp where
  Signed : Timestamp
  deriving DecidableEq, Repr

/-- Modelled from the spec: `timestampExpired` is called by `TestTimestampExpired`
but its body is not among the sources.  The spec calls a timestamp fresh when its
expiration instant is strictly after the current time and stale when it is at or
before it; `now` is the single clock read of the evaluation. -/
def timestampExpired (now : Int) (ts : SignedTimestamp) : Bool :=
  !decide (now < ts.Signed.Expires)

/-- The two assertions of `TestTimestampExpired`.  `built1` and `built2` are the
clock reads that build the two documents, `checked1` and `checked2` the reads
inside `timestampExpired`, `yearBack` and `yearAhead` the lengths of the calendar
year subtracted and added by `AddDate`. -/
def TestTimestampExpired (built1 checked1 built2 checked2 yearBack yearAhead : Int) : Bool :=
  timestampExpired checked1 ⟨⟨built1 - yearBack⟩⟩ &&
    !timestampExpired checked2 ⟨⟨built2 + yearAhead⟩⟩

end Notary

namespace Notary

/-! ## Facts about the statements -/

theorem countNotOlder_ne_zero_iff (e : Engine) (rows : List TufFile) (gun role : String)
    (version : Int) :
    countNotOlder e rows gun role version ≠ 0 ↔
      ∃ r ∈ rows, e.collate r.gun = e.collate gun ∧ e.collate r.role = e.collate role ∧
        version ≤ r.version := by
  unfold countNotOlder
  rw [Ne, List.length_eq_zero, List.filter_eq_nil_iff]
  simp

theorem foldl_pickLatest_mem (l : List TufFile) (init : Option TufFile) (b : TufFile)
    (h : l.foldl pickLatest init = some b) : init = some b ∨ b ∈ l := by
  induction l generalizing init with
  | nil => left; simpa using h
  | cons x xs ih =>
    rw [List.foldl_cons] at h
    rcases ih _ h with h1 | h1
    · cases init with
      | none =>
        simp only [pickLatest, Option.some.injEq] at h1
        right; simp [h1]
      | some c =>
        simp only [pickLatest] at h1
        split at h1
        · right; simp only [Option.some.injEq] at h1; simp [h1]
        · left; exact h1
    · right; exact List.mem_cons_of_mem _ h1

theorem selectLatest_mem (e : Engine) (rows : List TufFile) (gun role : String) (b : TufFile)
    (h : selectLatest e rows gun role = some b) :
    b ∈ rows ∧ e.collate b.gun = e.collate gun ∧ e.collate b.role = e.collate role := by
  unfold selectLatest at h
  rcases foldl_pickLatest_mem _ _ _ h with h1 | h1
  · cases h1
  · simpa [List.mem_filter] using h1

theorem foldl_pickLatest_isSome (l : List TufFile) (c : TufFile) :
    ∃ b, l.foldl pickLatest (some c) = some b := by
  induction l generalizing c with
  | nil => exact ⟨c, rfl⟩
  | cons x xs ih =>
    rw [List.foldl_cons]
    simp only [pickLatest]
    split
    · exact ih x
    · exact ih c

theorem selectLatest_eq_none_iff (e : Engine) (rows : List TufFile) (gun role : String) :
    selectLatest e rows gun role = none ↔
      ∀ r ∈ rows, ¬ (e.collate r.gun = e.collate gun ∧ e.collate r.role = e.collate role) := by
  unfold selectLatest
  constructor
  · intro h r hr hp
    have hmem : r ∈ rows.filter (fun r => decide (e.collate r.gun = e.collate gun ∧
        e.collate r.role = e.collate role)) := by
      simp [List.mem_filter, hr, hp]
    cases hf : rows.filter (fun r => decide (e.collate r.gun = e.collate gun ∧
        e.collate r.role = e.collate role)) with
    | nil => rw [hf] at hmem; simp at hmem
    | cons x xs =>
      rw [hf, List.foldl_cons] at h
      obtain ⟨b, hb⟩ := foldl_pickLatest_isSome xs x
      simp only [pickLatest] at h
      rw [hb] at h
      cases h
  · intro h
    have : rows.filter (fun r => decide (e.collate r.gun = e.collate gun ∧
        e.collate r.role = e.collate role)) = [] := by
      rw [List.filter_eq_nil_iff]
      intro r hr
      simpa using h r hr
    rw [this]
    rfl

theorem selectLatest_append_newer (e : Engine) (rows : List TufFile) (gun role : String)
    (version : Int) (data : Bytes)
    (h : ∀ r ∈ rows, e.collate r.gun = e.collate gun → e.collate r.role = e.collate role →
      r.version < version) :
    selectLatest e (rows ++ [⟨gun, role, version, data⟩]) gun role
      = some ⟨gun, role, version, data⟩ := by
  unfold selectLatest
  rw [List.filter_append, List.foldl_append]
  have hrow : [(⟨gun, role, version, data⟩ : TufFile)].filter
      (fun r => decide (e.collate r.gun = e.collate gun ∧ e.collate r.role = e.collate role))
        = [⟨gun, role, version, data⟩] := by
    simp
  rw [hrow, List.foldl_cons, List.foldl_nil]
  cases hb : (rows.filter (fun r => decide (e.collate r.gun = e.collate gun ∧
      e.collate r.role = e.collate role))).foldl pickLatest none with
  | none => rfl
  | some b =>
    have hm := selectLatest_mem e rows gun role b hb
    have hlt := h b hm.1 hm.2.1 hm.2.2
    simp [pickLatest, hlt]

/-- The rows `insertVersion` leaves behind are the old rows, or the old rows followed
by the new one when it returned nil. -/
theorem insertVersion_cases (e : Engine) (db : MySQLStorage) (gun role : String) (version : Int)
    (data : Bytes) (xf : Option SqlErr) :
    ((insertVersion e db gun role version data xf).1 ≠ none ∧
        (insertVersion e db gun role version data xf).2 = db) ∨
      ((insertVersion e db gun role version data xf).1 = none ∧
        (insertVersion e db gun role version data xf).2
          = { db with tuf_files := db.tuf_files ++ [⟨gun, role, version, data⟩] }) := by
  cases xf with
  | some err => left; simp [insertVersion]
  | none =>
    simp only [insertVersion, insertTufFile]
    cases e.tufFileErr ⟨gun, role, version, data⟩ with
    | some err => left; simp
    | none =>
      simp only
      split
      · rename_i err herr
        split at herr
        · left; simp
        · cases herr
      · rename_i rows hrows
        split at hrows
        · cases hrows
        · cases hrows
          right; simp

/-- A successful `UpdateCurrent` appended exactly the row it was given, and no row
of the pair had a version at or above it. -/
theorem UpdateCurrent_ok (e : Engine) (db : MySQLStorage) (gun role : String) (version : Int)
    (data : Bytes) (cf xf : Option SqlErr)
    (h : (UpdateCurrent e db gun role version data cf xf).1 = none) :
    (UpdateCurrent e db gun role version data cf xf).2
        = { db with tuf_files := db.tuf_files ++ [⟨gun, role, version, data⟩] } ∧
      ∀ r ∈ db.tuf_files, e.collate r.gun = e.collate gun → e.collate r.role = e.collate role →
        r.version < version := by
  unfold UpdateCurrent at h ⊢
  cases cf with
  | some err => simp [checkOldVersion] at h
  | none =>
    by_cases hc : countNotOlder e db.tuf_files gun role version ≠ 0
    · simp [checkOldVersion, hc] at h
    · have hnone : checkOldVersion e db gun role version none = none := by
        simp only [checkOldVersion]; rw [if_neg hc]
      have hall : ∀ r ∈ db.tuf_files, e.collate r.gun = e.collate gun →
          e.collate r.role = e.collate role → r.version < version := by
        intro r hr hg hro
        by_contra hlt
        exact hc ((countNotOlder_ne_zero_iff _ _ _ _ _).2 ⟨r, hr, hg, hro, not_lt.mp hlt⟩)
      rw [hnone] at h ⊢
      simp only at h ⊢
      refine ⟨?_, hall⟩
      rcases insertVersion_cases e db gun role version data xf with h1 | h1
      · exact absurd h h1.1
      · exact h1.2

/-- After a successful `UpdateCurrent`, `GetCurrent` reads back the data written. -/
theorem GetCurrent_after_UpdateCurrent (e : Engine) (db : MySQLStorage) (gun role : String)
    (version : Int) (data : Bytes) (cf xf : Option SqlErr)
    (h : (UpdateCurrent e db gun role version data cf xf).1 = none) :
    GetCurrent e (UpdateCurrent e db gun role version data cf xf).2 gun role none none none
      = (data, none) := by
  obtain ⟨hdb, hall⟩ := UpdateCurrent_ok e db gun role version data cf xf h
  rw [hdb]
  simp only [GetCurrent, nextRow]
  rw [selectLatest_append_newer _ _ _ _ _ _ hall]

theorem applyWrites_append (e : Engine) (gun role : String) (db : MySQLStorage)
    (ws : List Write) (w : Write) :
    applyWrites e gun role db (ws ++ [w])
      = ((UpdateCurrent e (applyWrites e gun role db ws).1 gun role w.version w.data
            w.checkFault w.insertFault).2,
         (applyWrites e gun role db ws).2 ++
           [(UpdateCurrent e (applyWrites e gun role db ws).1 gun role w.version w.data
              w.checkFault w.insertFault).1]) := by
  induction ws generalizing db with
  | nil => simp [applyWrites]
  | cons x xs ih => simp [applyWrites, ih]

/-- A write at or below a version that a matching row already holds: `ErrOldVersion`
when the count query ran, some error in any case, and no change to the database. -/
theorem UpdateCurrent_of_stale (e : Engine) (db : MySQLStorage) (gun role : String)
    (version : Int) (data : Bytes) (cf xf : Option SqlErr)
    (h : ∃ r ∈ db.tuf_files, e.collate r.gun = e.collate gun ∧
      e.collate r.role = e.collate role ∧ version ≤ r.version) :
    UpdateCurrent e db gun role version data none xf = (some .ErrOldVersion, db) ∧
      (UpdateCurrent e db gun role version data cf xf).2 = db ∧
      (UpdateCurrent e db gun role version data cf xf).1 ≠ none := by
  have hc := (countNotOlder_ne_zero_iff e db.tuf_files gun role version).2 h
  refine ⟨?_, ?_, ?_⟩
  · simp only [UpdateCurrent, checkOldVersion]; rw [if_pos hc]
  · cases cf with
    | some err => simp [UpdateCurrent, checkOldVersion]
    | none => simp only [UpdateCurrent, checkOldVersion]; rw [if_pos hc]
  · cases cf with
    | some err => simp [UpdateCurrent, checkOldVersion]
    | none => simp only [UpdateCurrent, checkOldVersion]; rw [if_pos hc]; simp

/-- The rows `UpdateCurrent` leaves behind include every row that was there. -/
theorem UpdateCurrent_keeps_rows (e : Engine) (db : MySQLStorage) (gun role : String)
    (version : Int) (data : Bytes) (cf xf : Option SqlErr) (r : TufFile)
    (hr : r ∈ db.tuf_files) :
    r ∈ (UpdateCurrent e db gun role version data cf xf).2.tuf_files := by
  unfold UpdateCurrent
  cases hck : checkOldVersion e db gun role version cf with
  | some err => exact hr
  | none =>
    simp only
    rcases insertVersion_cases e db gun role version data xf with h1 | h1
    · rw [h1.2]; exact hr
    · rw [h1.2]; exact List.mem_append_left _ hr

/-- The rows of `tuf_files` are not touched by `SetTimestampKey`. -/
theorem SetTimestampKey_tuf_files (e : Engine) (db : MySQLStorage) (gun cipher : String)
    (pk : Bytes) (xf : Option SqlErr) :
    (SetTimestampKey e db gun cipher pk xf).2.tuf_files = db.tuf_files := by
  have hexec : (execInsertKey e db gun cipher pk xf).2.tuf_files = db.tuf_files := by
    cases xf with
    | some err => rfl
    | none =>
      simp only [execInsertKey, insertKey]
      cases e.timestampKeyErr ⟨gun, cipher, pk⟩ with
      | some err => rfl
      | none => rfl
  simp only [SetTimestampKey]
  split
  · split <;> exact hexec
  · exact hexec

/-- An operation other than a `Delete` that ran on a gun the collation equates with
`gun` keeps every row of `gun`. -/
theorem Op.run_keeps_rows (e : Engine) (db : MySQLStorage) (op : Op) (gun : String)
    (r : TufFile) (hr : r ∈ db.tuf_files) (hg : e.collate r.gun = e.collate gun)
    (hop : op.deletes e gun = false) :
    r ∈ (op.run e db).tuf_files := by
  cases op with
  | UpdateCurrent g ro v d cf xf => exact UpdateCurrent_keeps_rows e db g ro v d cf xf r hr
  | GetCurrent g ro qf ff sf => exact hr
  | Delete g xf =>
    cases xf with
    | some err => exact hr
    | none =>
      simp only [Op.deletes, decide_eq_false_iff_not] at hop
      simp only [Op.run, Notary.Delete, deleteGun, List.mem_filter, decide_eq_true_eq]
      exact ⟨hr, fun h => hop (h.symm.trans hg)⟩
  | GetTimestampKey g f => exact hr
  | SetTimestampKey g c pk xf =>
    simp only [Op.run]
    rw [SetTimestampKey_tuf_files]
    exact hr

theorem runOps_keeps_rows (e : Engine) (ops : List Op) (db : MySQLStorage) (gun : String)
    (r : TufFile) (hr : r ∈ db.tuf_files) (hg : e.collate r.gun = e.collate gun)
    (hops : ∀ op ∈ ops, op.deletes e gun = false) :
    r ∈ (runOps e db ops).tuf_files := by
  induction ops generalizing db with
  | nil => exact hr
  | cons op rest ih =>
    simp only [runOps, List.foldl_cons]
    exact ih (op.run e db) (Op.run_keeps_rows e db op gun r hr hg (hops op (by simp)))
      (fun o ho => hops o (List.mem_cons_of_mem _ ho))

theorem selectLatest_deleteGun_other (e : Engine) (rows : List TufFile)
    (gun other role : String) (h : e.collate other ≠ e.collate gun) :
    selectLatest e (deleteGun e rows gun) other role = selectLatest e rows other role := by
  unfold selectLatest deleteGun
  rw [List.filter_filter]
  congr 1
  apply List.filter_congr
  intro r _
  by_cases hg : e.collate r.gun = e.collate other
  · simp [hg, h]
  · simp [hg]

/-! ## The claims -/

/-- C1: when the table already holds a row of `(gun, role)` whose version is at or
above the requested one, `UpdateCurrent` answers `ErrOldVersion` (the count query
having run), the database is left exactly as it was whatever the driver did, and
`GetCurrent` reads the same before and after. -/
theorem UpdateCurrent_rejects_stale (e : Engine) (db : MySQLStorage) (gun role : String)
    (version : Int) (data : Bytes) (checkFault insertFault : Option SqlErr)
    (h : ∃ r ∈ db.tuf_files, r.gun = gun ∧ r.role = role ∧ version ≤ r.version) :
    UpdateCurrent e db gun role version data none insertFault = (some .ErrOldVersion, db) ∧
      (UpdateCurrent e db gun role version data checkFault insertFault).2 = db ∧
      ∀ qf ff sf, GetCurrent e (UpdateCurrent e db gun role version data checkFault insertFault).2
          gun role qf ff sf = GetCurrent e db gun role qf ff sf := by
  have h' : ∃ r ∈ db.tuf_files, e.collate r.gun = e.collate gun ∧
      e.collate r.role = e.collate role ∧ version ≤ r.version := by
    obtain ⟨r, hr, hg, hro, hv⟩ := h
    exact ⟨r, hr, by rw [hg], by rw [hro], hv⟩
  obtain ⟨h1, h2, _⟩ := UpdateCurrent_of_stale e db gun role version data checkFault insertFault h'
  refine ⟨h1, h2, ?_⟩
  intro qf ff sf
  rw [h2]

theorem UpdateCurrent_rejects_stale_witness :
    (∃ r ∈ [(⟨"gun", "root", 5, some [1]⟩ : TufFile)],
        r.gun = "gun" ∧ r.role = "root" ∧ (5 : Int) ≤ r.version) ∧
      UpdateCurrent defaultEngine ⟨[⟨"gun", "root", 5, some [1]⟩], []⟩ "gun" "root" 5 (some [2])
        none none = (some .ErrOldVersion, ⟨[⟨"gun", "root", 5, some [1]⟩], []⟩) :=
  ⟨by decide,
    (UpdateCurrent_rejects_stale defaultEngine ⟨[⟨"gun", "root", 5, some [1]⟩], []⟩ "gun" "root" 5
      (some [2]) none none (by decide)).1⟩

/-- C2: starting from a database with no row of `(gun, role)`, after a non-empty
sequence of `UpdateCurrent` calls on the pair with strictly increasing versions,
all of which returned nil, `GetCurrent` returns with nil error the data of the last
call, and that call is the one with the greatest version. -/
theorem GetCurrent_after_increasing_writes (e : Engine) (db : MySQLStorage) (gun role : String)
    (ws : List Write) (last : Write)
    (_hempty : ∀ r ∈ db.tuf_files, ¬ (r.gun = gun ∧ r.role = role))
    (hinc : ((ws ++ [last]).map (fun w => w.version)).Pairwise (fun a b => a < b))
    (hok : ∀ err ∈ (applyWrites e gun role db (ws ++ [last])).2, err = none) :
    GetCurrent e (applyWrites e gun role db (ws ++ [last])).1 gun role none none none
        = (last.data, none) ∧
      ∀ w ∈ ws ++ [last], w.version ≤ last.version := by
  constructor
  · rw [applyWrites_append] at hok ⊢
    apply GetCurrent_after_UpdateCurrent
    exact hok _ (by simp)
  · intro w hw
    rw [List.map_append, List.pairwise_append] at hinc
    rcases List.mem_append.1 hw with h1 | h1
    · exact le_of_lt (hinc.2.2 _ (List.mem_map_of_mem _ h1) _ (by simp))
    · simp only [List.mem_singleton] at h1
      rw [h1]

theorem GetCurrent_after_increasing_writes_witness :
    (∀ r ∈ (⟨[⟨"other", "root", 9, some [0]⟩], []⟩ : MySQLStorage).tuf_files,
        ¬ (r.gun = "gun" ∧ r.role = "root")) ∧
      GetCurrent defaultEngine (applyWrites defaultEngine "gun" "root"
        ⟨[⟨"other", "root", 9, some [0]⟩], []⟩
        ([⟨1, some [1], none, none⟩, ⟨4, some [2], none, none⟩] ++ [⟨7, some [3], none, none⟩])).1
        "gun" "root" none none none = (some [3], none) :=
  ⟨by decide,
    (GetCurrent_after_increasing_writes defaultEngine ⟨[⟨"other", "root", 9, some [0]⟩], []⟩
      "gun" "root" [⟨1, some [1], none, none⟩, ⟨4, some [2], none, none⟩]
      ⟨7, some [3], none, none⟩ (by decide) (by decide) (by decide)).1⟩

/-- C3: two concurrent `UpdateCurrent` calls at the same `(gun, role, version)`, both
past the count query before either inserts: the first insert wins and the second is
rejected by the unique index, and the loser receives the driver's duplicate-key
error itself, which is not `ErrOldVersion`. -/
theorem raceUpdateCurrent_loser_gets_backend_error :
    raceUpdateCurrent defaultEngine ⟨[], []⟩ "gun" "root" 1 (some [1]) (some [2])
        = (none, some (.backend (.MySQLError 1062 "Duplicate entry")),
            ⟨[⟨"gun", "root", 1, some [1]⟩], []⟩) ∧
      (raceUpdateCurrent defaultEngine ⟨[], []⟩ "gun" "root" 1 (some [1]) (some [2])).2.1
        ≠ some .ErrOldVersion := by
  decide

/-- C4: an INSERT of `SetTimestampKey` that fails with a MySQL error whose number is
not 1022 (here 1146, the table does not exist), or with an error that is no MySQL
error at all (here a refused connection), makes `SetTimestampKey` return nil, with
no key stored. -/
theorem SetTimestampKey_swallows_errors :
    SetTimestampKey defaultEngine ⟨[], []⟩ "gun" "ed25519" (some [7])
        (some (.MySQLError 1146 "no such table")) = (none, ⟨[], []⟩) ∧
      SetTimestampKey defaultEngine ⟨[], []⟩ "gun" "ed25519" (some [7])
        (some (.other "connection refused")) = (none, ⟨[], []⟩) ∧
      GetTimestampKey defaultEngine ⟨[], []⟩ "gun" none = ("", none, some (.ErrNoKey "gun")) := by
  decide

/-- C5: `SetTimestampKey` for a gun that already has a row in `timestamp_keys`
returns nil, not `ErrTimestampKeyExists`, and adds a second row for the gun. -/
theorem SetTimestampKey_existing_gun_adds_row :
    SetTimestampKey defaultEngine ⟨[], [⟨"gun", "ed25519", some [7]⟩]⟩ "gun" "ecdsa" (some [9]) none
        = (none, ⟨[], [⟨"gun", "ed25519", some [7]⟩, ⟨"gun", "ecdsa", some [9]⟩]⟩) := by
  decide

/-- C6 (the claim as written fails): version 5 of a pair is accepted, `Delete` of
the gun runs, and a later `UpdateCurrent` of the pair at version 3 is accepted. -/
theorem UpdateCurrent_accepts_older_after_Delete :
    (UpdateCurrent defaultEngine ⟨[], []⟩ "gun" "root" 5 (some [1]) none none).1 = none ∧
      (UpdateCurrent defaultEngine
        (runOps defaultEngine
          (UpdateCurrent defaultEngine ⟨[], []⟩ "gun" "root" 5 (some [1]) none none).2
          [.Delete "gun" none])
        "gun" "root" 3 (some [2]) none none).1 = none := by
  decide

/-- C6 (amended): once `UpdateCurrent(gun, role, V, _)` has returned nil, then after
any sequence of store operations in which the database carried out no `Delete`
whose argument the collation of the table equates with `gun`, every
`UpdateCurrent(gun, role, V', _)` with `V' ≤ V` is rejected: it returns
`ErrOldVersion` when its count query ran, a non-nil error in every case, and it
leaves the database unchanged. -/
theorem UpdateCurrent_rejects_older_without_Delete (e : Engine) (db : MySQLStorage)
    (gun role : String) (V : Int) (data : Bytes) (cf xf : Option SqlErr) (ops : List Op)
    (V' : Int) (data' : Bytes) (cf' xf' : Option SqlErr)
    (hok : (UpdateCurrent e db gun role V data cf xf).1 = none)
    (hops : ∀ op ∈ ops, op.deletes e gun = false)
    (hle : V' ≤ V) :
    UpdateCurrent e (runOps e (UpdateCurrent e db gun role V data cf xf).2 ops) gun role V' data'
        none xf'
        = (some .ErrOldVersion, runOps e (UpdateCurrent e db gun role V data cf xf).2 ops) ∧
      (UpdateCurrent e (runOps e (UpdateCurrent e db gun role V data cf xf).2 ops) gun role V'
        data' cf' xf').2 = runOps e (UpdateCurrent e db gun role V data cf xf).2 ops ∧
      (UpdateCurrent e (runOps e (UpdateCurrent e db gun role V data cf xf).2 ops) gun role V'
        data' cf' xf').1 ≠ none := by
  apply UpdateCurrent_of_stale
  refine ⟨⟨gun, role, V, data⟩, ?_, rfl, rfl, hle⟩
  apply runOps_keeps_rows e _ _ gun _ _ rfl hops
  rw [(UpdateCurrent_ok e db gun role V data cf xf hok).1]
  simp

theorem UpdateCurrent_rejects_older_without_Delete_witness :
    (UpdateCurrent defaultEngine ⟨[], []⟩ "gun" "root" 5 (some [1]) none none).1 = none ∧
      (∀ op ∈ [Op.Delete "other" none,
          .SetTimestampKey "gun" "ed25519" (some [7]) none,
          .UpdateCurrent "gun" "targets" 1 (some [4]) none none,
          .GetCurrent "gun" "root" none none none], op.deletes defaultEngine "gun" = false) ∧
      UpdateCurrent defaultEngine
        (runOps defaultEngine
          (UpdateCurrent defaultEngine ⟨[], []⟩ "gun" "root" 5 (some [1]) none none).2
          [.Delete "other" none,
            .SetTimestampKey "gun" "ed25519" (some [7]) none,
            .UpdateCurrent "gun" "targets" 1 (some [4]) none none,
            .GetCurrent "gun" "root" none none none])
        "gun" "root" 3 (some [2]) none none
        = (some .ErrOldVersion,
          runOps defaultEngine
            (UpdateCurrent defaultEngine ⟨[], []⟩ "gun" "root" 5 (some [1]) none none).2
            [.Delete "other" none,
              .SetTimestampKey "gun" "ed25519" (some [7]) none,
              .UpdateCurrent "gun" "targets" 1 (some [4]) none none,
              .GetCurrent "gun" "root" none none none]) :=
  ⟨by decide, by decide,
    (UpdateCurrent_rejects_older_without_Delete defaultEngine ⟨[], []⟩ "gun" "root" 5 (some [1])
      none none
      [.Delete "other" none,
        .SetTimestampKey "gun" "ed25519" (some [7]) none,
        .UpdateCurrent "gun" "targets" 1 (some [4]) none none,
        .GetCurrent "gun" "root" none none none]
      3 (some [2]) none none (by decide) (by decide) (by decide)).1⟩

/-- C7 (the claim as written fails): the table holds no row whose gun is the string
`GUN`, yet `Delete("GUN")` returns nil and removes the row of `gun`, which the
collation of the table equates with it. -/
theorem Delete_case_variant_changes_store :
    (∀ r ∈ (⟨[⟨"gun", "root", 1, some [1]⟩, ⟨"other", "root", 2, some [2]⟩], []⟩ :
        MySQLStorage).tuf_files, r.gun ≠ "GUN") ∧
      Delete defaultEngine ⟨[⟨"gun", "root", 1, some [1]⟩, ⟨"other", "root", 2, some [2]⟩], []⟩
        "GUN" none = (none, ⟨[⟨"other", "root", 2, some [2]⟩], []⟩) := by
  decide

/-- C7 (amended): after `Delete(gun)` returned nil the table holds no row whose gun
the collation of the table equates with the argument, so none of `gun` itself, and
`GetCurrent(gun, role)` answers `ErrNotFound` for every role; and `Delete(gun)` on
a database without a row whose gun the collation equates with the argument returns
nil and leaves the database as it was. -/
theorem Delete_removes_every_row (e : Engine) (db : MySQLStorage) (gun role : String)
    (execFault fetchFault scanFault : Option SqlErr) :
    ((Delete e db gun execFault).1 = none →
        (∀ r ∈ (Delete e db gun execFault).2.tuf_files,
            e.collate r.gun ≠ e.collate gun ∧ r.gun ≠ gun) ∧
          GetCurrent e (Delete e db gun execFault).2 gun role none fetchFault scanFault
            = (none, some .ErrNotFound)) ∧
      ((∀ r ∈ db.tuf_files, e.collate r.gun ≠ e.collate gun) →
        Delete e db gun none = (none, db)) := by
  constructor
  · intro h
    cases execFault with
    | some err => simp [Delete] at h
    | none =>
      have hrows : ∀ r ∈ (Delete e db gun none).2.tuf_files,
          e.collate r.gun ≠ e.collate gun := by
        intro r hr
        simp only [Delete, deleteGun, List.mem_filter, decide_eq_true_eq] at hr
        exact hr.2
      refine ⟨fun r hr => ⟨hrows r hr, fun hg => hrows r hr (by rw [hg])⟩, ?_⟩
      have hsel : selectLatest e (Delete e db gun none).2.tuf_files gun role = none :=
        (selectLatest_eq_none_iff _ _ _ _).2 (fun r hr hp => hrows r hr hp.1)
      simp only [GetCurrent, nextRow]
      cases fetchFault with
      | some err => rfl
      | none => simp only; rw [hsel]
  · intro h
    have hf : deleteGun e db.tuf_files gun = db.tuf_files := by
      unfold deleteGun
      rw [List.filter_eq_self]
      intro r hr
      simpa using h r hr
    simp only [Delete]
    rw [hf]

theorem Delete_removes_every_row_witness :
    ((Delete defaultEngine ⟨[⟨"gun", "root", 1, some [1]⟩, ⟨"other", "root", 2, some [2]⟩,
          ⟨"Gun", "targets", 3, some [3]⟩], []⟩ "gun" none).1 = none ∧
        GetCurrent defaultEngine (Delete defaultEngine ⟨[⟨"gun", "root", 1, some [1]⟩,
          ⟨"other", "root", 2, some [2]⟩, ⟨"Gun", "targets", 3, some [3]⟩], []⟩ "gun" none).2
          "gun" "targets" none none none = (none, some .ErrNotFound)) ∧
      ((∀ r ∈ (⟨[⟨"other", "root", 2, some [2]⟩], []⟩ : MySQLStorage).tuf_files,
          defaultEngine.collate r.gun ≠ defaultEngine.collate "GUN") ∧
        Delete defaultEngine ⟨[⟨"other", "root", 2, some [2]⟩], []⟩ "GUN" none
          = (none, ⟨[⟨"other", "root", 2, some [2]⟩], []⟩)) :=
  ⟨⟨by decide,
      ((Delete_removes_every_row defaultEngine ⟨[⟨"gun", "root", 1, some [1]⟩,
        ⟨"other", "root", 2, some [2]⟩, ⟨"Gun", "targets", 3, some [3]⟩], []⟩ "gun" "targets"
        none none none).1 (by decide)).2⟩,
    ⟨by decide,
      (Delete_removes_every_row defaultEngine ⟨[⟨"other", "root", 2, some [2]⟩], []⟩ "GUN" "root"
        none none none).2 (by decide)⟩⟩

/-- C8 (the claim as written fails): the table holds no row whose gun is the string
`GUN`, yet `GetTimestampKey("GUN")` returns the key of `gun` with nil error, not
`ErrNoKey`. -/
theorem GetTimestampKey_case_variant_finds_key :
    (∀ r ∈ (⟨[], [⟨"gun", "ed25519", some [7]⟩]⟩ : MySQLStorage).timestamp_keys,
        r.gun ≠ "GUN") ∧
      GetTimestampKey defaultEngine ⟨[], [⟨"gun", "ed25519", some [7]⟩]⟩ "GUN" none
        = ("ed25519", some [7], none) := by
  decide

/-- C8 (amended): with the query running, `GetTimestampKey(gun)` answers `ErrNoKey`
exactly when `timestamp_keys` holds no row whose gun the collation of the table
equates with the argument, and then with empty cipher and nil public; when such a
row exists it returns the cipher and public of such a row with nil error; and a
failure of the query other than `sql.ErrNoRows` is returned as that same error,
which is not an `ErrNoKey`. -/
theorem GetTimestampKey_classifies (e : Engine) (db : MySQLStorage) (gun : String)
    (err : SqlErr) :
    ((GetTimestampKey e db gun none).2.2 = some (.ErrNoKey gun) ↔
        ∀ r ∈ db.timestamp_keys, e.collate r.gun ≠ e.collate gun) ∧
      ((∀ r ∈ db.timestamp_keys, e.collate r.gun ≠ e.collate gun) →
        GetTimestampKey e db gun none = ("", none, some (.ErrNoKey gun))) ∧
      ((∃ r ∈ db.timestamp_keys, e.collate r.gun = e.collate gun) →
        ∃ r ∈ db.timestamp_keys, e.collate r.gun = e.collate gun ∧
          GetTimestampKey e db gun none = (r.cipher, r.public, none)) ∧
      (err ≠ .ErrNoRows →
        GetTimestampKey e db gun (some err) = ("", none, some (.backend err)) ∧
          ∀ g, StoreErr.backend err ≠ .ErrNoKey g) := by
  have hnone : (∀ r ∈ db.timestamp_keys, e.collate r.gun ≠ e.collate gun) →
      GetTimestampKey e db gun none = ("", none, some (.ErrNoKey gun)) := by
    intro h
    have hs : selectKey e db.timestamp_keys gun = none := by
      unfold selectKey
      rw [List.find?_eq_none]
      intro r hr
      simpa using h r hr
    simp only [GetTimestampKey, scanKey]
    rw [hs]
    simp
  have hsome : (∃ r ∈ db.timestamp_keys, e.collate r.gun = e.collate gun) →
      ∃ r ∈ db.timestamp_keys, e.collate r.gun = e.collate gun ∧
        GetTimestampKey e db gun none = (r.cipher, r.public, none) := by
    intro h
    cases hs : selectKey e db.timestamp_keys gun with
    | none =>
      unfold selectKey at hs
      rw [List.find?_eq_none] at hs
      obtain ⟨r, hr, hg⟩ := h
      exact absurd hg (by simpa using hs r hr)
    | some row =>
      refine ⟨row, ?_, ?_, ?_⟩
      · exact List.mem_of_find?_eq_some hs
      · simpa using List.find?_some hs
      · simp only [GetTimestampKey, scanKey]
        rw [hs]
  refine ⟨⟨?_, fun h => by rw [hnone h]⟩, hnone, hsome, ?_⟩
  · intro h r hr hg
    obtain ⟨row, _, _, hrow⟩ := hsome ⟨r, hr, hg⟩
    rw [hrow] at h
    cases h
  · intro h
    refine ⟨?_, fun g hg => by cases hg⟩
    simp only [GetTimestampKey, scanKey]
    rw [if_neg h]

theorem GetTimestampKey_classifies_witness :
    ((∀ r ∈ (⟨[], [⟨"other", "ed25519", some [7]⟩]⟩ : MySQLStorage).timestamp_keys,
          defaultEngine.collate r.gun ≠ defaultEngine.collate "gun") ∧
        GetTimestampKey defaultEngine ⟨[], [⟨"other", "ed25519", some [7]⟩]⟩ "gun" none
          = ("", none, some (.ErrNoKey "gun"))) ∧
      ((∃ r ∈ (⟨[], [⟨"other", "ed25519", some [7]⟩, ⟨"gun", "ecdsa", some [9]⟩]⟩ :
            MySQLStorage).timestamp_keys,
          defaultEngine.collate r.gun = defaultEngine.collate "GUN") ∧
        ∃ r ∈ (⟨[], [⟨"other", "ed25519", some [7]⟩, ⟨"gun", "ecdsa", some [9]⟩]⟩ :
            MySQLStorage).timestamp_keys,
          defaultEngine.collate r.gun = defaultEngine.collate "GUN" ∧
            GetTimestampKey defaultEngine
              ⟨[], [⟨"other", "ed25519", some [7]⟩, ⟨"gun", "ecdsa", some [9]⟩]⟩ "GUN" none
              = (r.cipher, r.public, none)) ∧
      (SqlErr.other "connection refused" ≠ .ErrNoRows ∧
        GetTimestampKey defaultEngine ⟨[], [⟨"gun", "ecdsa", some [9]⟩]⟩ "gun"
          (some (.other "connection refused"))
          = ("", none, some (.backend (.other "connection refused")))) :=
  ⟨⟨by decide,
      (GetTimestampKey_classifies defaultEngine ⟨[], [⟨"other", "ed25519", some [7]⟩]⟩ "gun"
        .ErrNoRows).2.1 (by decide)⟩,
    ⟨by decide,
      (GetTimestampKey_classifies defaultEngine
        ⟨[], [⟨"other", "ed25519", some [7]⟩, ⟨"gun", "ecdsa", some [9]⟩]⟩ "GUN"
        .ErrNoRows).2.2.1 (by decide)⟩,
    ⟨by decide,
      ((GetTimestampKey_classifies defaultEngine ⟨[], [⟨"gun", "ecdsa", some [9]⟩]⟩ "gun"
        (.other "connection refused")).2.2.2 (by decide)).1⟩⟩

/-- C9: with `now` the single clock read, `timestampExpired` is false exactly when the
expiration instant is strictly after `now` and true exactly when it is at or
before `now`; a document that expired a positive duration ago is expired and one
that expires a positive duration ahead is not. -/
theorem timestampExpired_iff (now : Int) (ts : SignedTimestamp) (year : Nat) :
    (timestampExpired now ts = false ↔ now < ts.Signed.Expires) ∧
      (timestampExpired now ts = true ↔ ts.Signed.Expires ≤ now) ∧
      timestampExpired now ⟨⟨now - (year + 1)⟩⟩ = true ∧
      timestampExpired now ⟨⟨now + (year + 1)⟩⟩ = false := by
  refine ⟨?_, ?_, ?_, ?_⟩
  · simp [timestampExpired]
  · simp [timestampExpired]
  · simp only [timestampExpired, Bool.not_eq_true', decide_eq_false_iff_not]; omega
  · simp only [timestampExpired, Bool.not_eq_false', decide_eq_true_eq]; omega

/-- The assertions of `TestTimestampExpired` hold whenever the clock does not run
backwards between building the first document and checking it, and the second
check happens before the second document expires. -/
theorem TestTimestampExpired_passes (built1 checked1 built2 checked2 yearBack yearAhead : Int)
    (h1 : built1 ≤ checked1) (hback : 0 ≤ yearBack) (h2 : checked2 < built2 + yearAhead) :
    TestTimestampExpired built1 checked1 built2 checked2 yearBack yearAhead = true := by
  simp only [TestTimestampExpired, timestampExpired, Bool.and_eq_true, Bool.not_eq_true',
    decide_eq_false_iff_not, Bool.not_not, decide_eq_true_eq]
  constructor <;> omega

/-- C10 (the claim as written fails): `gun` and `GUN` are different strings, yet
`Delete("GUN")` removes the row of `gun`: `GetCurrent("gun", "root")` returns the
data before the delete and `ErrNotFound` after it. -/
theorem Delete_case_variant_removes_other_gun :
    "gun" ≠ "GUN" ∧
      GetCurrent defaultEngine ⟨[⟨"gun", "root", 1, some [1]⟩], []⟩ "gun" "root" none none none
        = (some [1], none) ∧
      (Delete defaultEngine ⟨[⟨"gun", "root", 1, some [1]⟩], []⟩ "GUN" none).1 = none ∧
      GetCurrent defaultEngine
        (Delete defaultEngine ⟨[⟨"gun", "root", 1, some [1]⟩], []⟩ "GUN" none).2
        "gun" "root" none none none = (none, some .ErrNotFound) := by
  decide

/-- C10 (amended): `Delete(gun)` removes no row whose gun the collation of the table
tells apart from the argument and adds no row, so `GetCurrent(other, role)` is the
same before and after for every `other` that the collation tells apart from
`gun`; the timestamp-key table is untouched, so `GetTimestampKey` returns what it
returned before, for the deleted gun as for any other. -/
theorem Delete_frame (e : Engine) (db : MySQLStorage) (gun other role keyGun : String)
    (execFault qf ff sf kf : Option SqlErr) (h : e.collate other ≠ e.collate gun) :
    (Delete e db gun execFault).2.tuf_files.filter
          (fun r => decide (e.collate r.gun ≠ e.collate gun))
        = db.tuf_files.filter (fun r => decide (e.collate r.gun ≠ e.collate gun)) ∧
      (Delete e db gun execFault).2.tuf_files.Sublist db.tuf_files ∧
      GetCurrent e (Delete e db gun execFault).2 other role qf ff sf
        = GetCurrent e db other role qf ff sf ∧
      (Delete e db gun execFault).2.timestamp_keys = db.timestamp_keys ∧
      GetTimestampKey e (Delete e db gun execFault).2 keyGun kf
        = GetTimestampKey e db keyGun kf := by
  cases execFault with
  | some err => exact ⟨rfl, List.Sublist.refl _, rfl, rfl, rfl⟩
  | none =>
    refine ⟨?_, ?_, ?_, rfl, rfl⟩
    · simp [Delete, deleteGun, List.filter_filter]
    · exact List.filter_sublist _
    · simp only [Delete, GetCurrent, nextRow]
      rw [selectLatest_deleteGun_other _ _ _ _ _ h]

theorem Delete_frame_witness :
    defaultEngine.collate "other" ≠ defaultEngine.collate "gun" ∧
      GetCurrent defaultEngine (Delete defaultEngine
          ⟨[⟨"gun", "root", 1, some [1]⟩, ⟨"other", "root", 2, some [2]⟩],
            [⟨"gun", "ed25519", some [7]⟩]⟩ "gun" none).2 "other" "root" none none none
        = GetCurrent defaultEngine
          ⟨[⟨"gun", "root", 1, some [1]⟩, ⟨"other", "root", 2, some [2]⟩],
            [⟨"gun", "ed25519", some [7]⟩]⟩ "other" "root" none none none ∧
      GetTimestampKey defaultEngine (Delete defaultEngine
          ⟨[⟨"gun", "root", 1, some [1]⟩, ⟨"other", "root", 2, some [2]⟩],
            [⟨"gun", "ed25519", some [7]⟩]⟩ "gun" none).2 "gun" none
        = GetTimestampKey defaultEngine
          ⟨[⟨"gun", "root", 1, some [1]⟩, ⟨"other", "root", 2, some [2]⟩],
            [⟨"gun", "ed25519", some [7]⟩]⟩ "gun" none :=
  ⟨by decide,
    (Delete_frame defaultEngine ⟨[⟨"gun", "root", 1, some [1]⟩, ⟨"other", "root", 2, some [2]⟩],
      [⟨"gun", "ed25519", some [7]⟩]⟩ "gun" "other" "root" "gun" none none none none none
      (by decide)).2.2.1,
    (Delete_frame defaultEngine ⟨[⟨"gun", "root", 1, some [1]⟩, ⟨"other", "root", 2, some [2]⟩],
      [⟨"gun", "ed25519", some [7]⟩]⟩ "gun" "other" "root" "gun" none none none none none
      (by decide)).2.2.2.2⟩

end Notary
